import Mathlib

/-!
Verification of the pytrafficflow traffic library.

The Python source computes with IEEE-754 doubles.  We embed its arithmetic
over the real numbers for the macroscopic velocity function
(`core/velocity.py`) and for the IDM engine (`data/synthetic/one_road.py`),
whose formulas use `log`, `sqrt` and real powers, and over the rationals for
the particle engine (`pytrafficflow/models/particle.py`), whose operations
(+, -, *, /, `min`, `max`, comparisons) are exact on rationals.
-/

namespace PyTrafficFlow

/-! ### core/velocity.py -/

/-- State stored by `VelocityFunction.__init__`: the five constructor
parameters together with the derived jam density `rho_max`, the critical
density `rho_c` and the continuity exponent `K3`. -/
structure VelocityFunction where
  vmax : ℝ
  dmin : ℝ
  lcar : ℝ
  K1 : ℝ
  K2 : ℝ
  rho_c : ℝ
  rho_max : ℝ
  K3 : ℝ

/-- Embedding of `VelocityFunction.__init__`.  The Python body contains no
`raise` statement and no validation: it sets `rho_max = lcar / (lcar + dmin)`,
lets `rho_c` default to `0.175` when `None` is passed, and computes
`K3 = np.log(vmax / K1) / np.log(rho_c ** -K2 - rho_max ** -K2)`
unconditionally (`np.log` of a non-positive argument emits a runtime warning
and returns `nan` or `-inf`; it does not raise).  Construction therefore
always succeeds, which we model as an `Except` value that is always `ok`. -/
noncomputable def mkVelocityFunction (vmax dmin lcar K1 K2 : ℝ)
    (rho_c0 : Option ℝ) : Except Unit VelocityFunction :=
  let rho_max := lcar / (lcar + dmin)
  let rho_c := rho_c0.getD 0.175
  Except.ok
    { vmax := vmax, dmin := dmin, lcar := lcar, K1 := K1, K2 := K2
      rho_c := rho_c, rho_max := rho_max
      K3 := Real.log (vmax / K1) / Real.log (rho_c ^ (-K2) - rho_max ^ (-K2)) }

/-- Embedding of `VelocityFunction.__call__`.  The Python code starts from a
zero array and assigns region 1 (`rho <= rho_c`) the value `vmax`, then
region 2 (`rho_c < rho < rho_max`) the congested formula, then region 3
(`rho >= rho_max`) the value `0`.  Later assignments overwrite earlier ones,
so the final value is obtained by testing region 3 first, then region 2,
then region 1, untouched points keeping the initial `0`. -/
noncomputable def VelocityFunction.eval (f : VelocityFunction) (rho : ℝ) : ℝ :=
  if f.rho_max ≤ rho then 0
  else if f.rho_c < rho ∧ rho < f.rho_max then
    f.K1 * (rho ^ (-f.K2) - f.rho_max ^ (-f.K2)) ^ f.K3
  else if rho ≤ f.rho_c then f.vmax
  else 0

/-- Embedding of `VelocityFunction.derivative`: zero outside the open
interval `(rho_c, rho_max)`, the chain-rule closed form inside it. -/
noncomputable def VelocityFunction.derivative (f : VelocityFunction) (rho : ℝ) : ℝ :=
  if f.rho_c < rho ∧ rho < f.rho_max then
    f.K1 * f.K3 * (rho ^ (-f.K2) - f.rho_max ^ (-f.K2)) ^ (f.K3 - 1) *
      (-f.K2) * rho ^ (-f.K2 - 1)
  else 0

/-- Embedding of `VelocityFunction.flux`: `f(rho) = v(rho) * rho`. -/
noncomputable def VelocityFunction.flux (f : VelocityFunction) (rho : ℝ) : ℝ :=
  f.eval rho * rho

/-- Embedding of `VelocityFunction.flux_derivative`:
`f'(rho) = v(rho) + rho * v'(rho)`. -/
noncomputable def VelocityFunction.flux_derivative (f : VelocityFunction) (rho : ℝ) : ℝ :=
  f.eval rho + rho * f.derivative rho

/-! Numeric evaluation helpers for real powers at integer exponents. -/

lemma rpow_neg_one_eval (x : ℝ) : x ^ (-(1 : ℝ)) = x⁻¹ := by
  have h : (-(1 : ℝ)) = ((-1 : ℤ) : ℝ) := by norm_num
  rw [h, Real.rpow_intCast, zpow_neg, zpow_one]

lemma rpow_neg_two_eval (x : ℝ) : x ^ (-(2 : ℝ)) = (x ^ 2)⁻¹ := by
  have h : (-(2 : ℝ)) = ((-2 : ℤ) : ℝ) := by norm_num
  rw [h, Real.rpow_intCast, zpow_neg]
  norm_cast

/-- Strict antitonicity of `x ^ (-K)` on positive reals, for `K > 0`. -/
lemma rpow_neg_strictAnti {K a b : ℝ} (hK : 0 < K) (ha : 0 < a) (hab : a < b) :
    b ^ (-K) < a ^ (-K) := by
  have hb : 0 < b := ha.trans hab
  rw [Real.rpow_neg ha.le, Real.rpow_neg hb.le]
  exact inv_strictAnti₀ (Real.rpow_pos_of_pos ha K) (Real.rpow_lt_rpow ha.le hab hK)

/-- Weak antitonicity of `x ^ (-K)` on positive reals, for `K ≥ 0`. -/
lemma rpow_neg_anti {K a b : ℝ} (hK : 0 ≤ K) (ha : 0 < a) (hab : a ≤ b) :
    b ^ (-K) ≤ a ^ (-K) := by
  have hb : 0 < b := lt_of_lt_of_le ha hab
  rw [Real.rpow_neg ha.le, Real.rpow_neg hb.le]
  exact inv_anti₀ (Real.rpow_pos_of_pos ha K) (Real.rpow_le_rpow ha.le hab hK)

/-! ### data/synthetic/one_road.py -/

/-- Embedding of the `Vehicle` dataclass.  The fields `width`, `is_truck`
and `color` never enter the dynamics (`is_truck` and `color` only select
alternative default parameter values and a drawing colour in
`__post_init__`), so only the kinematic and car-following fields are kept. -/
structure Vehicle where
  id : ℤ
  position : ℝ
  speed : ℝ
  lane : ℤ
  length : ℝ := 5
  v_desired : ℝ := 30
  T : ℝ := 1.5
  s0 : ℝ := 2
  a_max : ℝ := 1
  b_comfort : ℝ := 1.5

namespace IDMModel

/-- Embedding of `IDMModel.calc_acceleration`.  The Python exponentiation
`(veh.speed / veh.v_desired) ** delta` with the float exponent `delta`
becomes a real power, and `np.sqrt` becomes `Real.sqrt`. -/
noncomputable def calc_acceleration (veh : Vehicle) (leader : Option Vehicle)
    (delta : ℝ) : ℝ :=
  match leader with
  | none => veh.a_max * (1 - (veh.speed / veh.v_desired) ^ delta)
  | some l =>
    let s := l.position - veh.position - l.length
    let dv := veh.speed - l.speed
    let s_star := veh.s0 +
      max 0 (veh.speed * veh.T +
        veh.speed * dv / (2 * Real.sqrt (veh.a_max * veh.b_comfort)))
    veh.a_max * (1 - (veh.speed / veh.v_desired) ^ delta -
      (s_star / max s 0.1) ^ 2)

end IDMModel

/-- Embedding of the `Road` state: configured length, lane count and the
vehicle list. -/
structure Road where
  length : ℝ
  n_lanes : ℕ
  vehicles : List Vehicle

/-- Embedding of `Road.get_leader`: among vehicles in the queried vehicle's
lane with a different id, keep those strictly ahead, and take the one with
the smallest position.  Python's `min` keeps the first of equal keys, which
the fold below reproduces (it replaces the candidate only on a strictly
smaller position). -/
noncomputable def Road.get_leader (road : Road) (veh : Vehicle) : Option Vehicle :=
  let same_lane := road.vehicles.filter fun v => v.lane = veh.lane ∧ v.id ≠ veh.id
  let ahead := same_lane.filter fun v => veh.position < v.position
  match ahead with
  | [] => none
  | x :: xs => some (xs.foldl (fun b v => if v.position < b.position then v else b) x)

/-- One fold step of building the Python `accelerations` dict: a later write
to the same key shadows an earlier one, exactly as a dict assignment. -/
def table_insert (g : Vehicle → ℝ) (d : ℤ → Option ℝ) (v : Vehicle) :
    ℤ → Option ℝ :=
  fun i => if i = v.id then some (g v) else d i

/-- Folding `table_insert` over a vehicle list, starting from `init`. -/
def table_fold (g : Vehicle → ℝ) (init : ℤ → Option ℝ) (l : List Vehicle) :
    ℤ → Option ℝ :=
  l.foldl (table_insert g) init

/-- Embedding of the first loop of `Road.update`: the dict
`accelerations[veh.id] = calc_acceleration(veh, get_leader(veh))`, built over
the pre-step vehicle list with the default exponent `delta = 4`. -/
noncomputable def Road.accel_table (road : Road) : ℤ → Option ℝ :=
  table_fold (fun v => IDMModel.calc_acceleration v (road.get_leader v) 4)
    (fun _ => none) road.vehicles

/-- Embedding of the ring-road boundary adjustment at the end of
`Road.update`: a single conditional wrap, `if position > length` subtract
`length`, `elif position < 0` add `length`. -/
noncomputable def wrap_position (length pos : ℝ) : ℝ :=
  if pos > length then pos - length
  else if pos < 0 then pos + length
  else pos

/-- Embedding of the body of the second loop of `Road.update`: the speed is
clamped at zero first, and the position update then reads the freshly
written speed (`veh.speed` was reassigned on the previous line), so the
displacement is `speed' * dt + 0.5 * acc * dt ** 2`. -/
noncomputable def integrate_vehicle (length dt : ℝ) (veh : Vehicle) (acc : ℝ) :
    Vehicle :=
  let speed := max 0 (veh.speed + acc * dt)
  let position := veh.position + speed * dt + 0.5 * acc * dt ^ 2
  { veh with speed := speed, position := wrap_position length position }

/-- Embedding of `Road.update`: build the acceleration dict over the
pre-step list, then update every vehicle.  The Python second loop mutates
the vehicles in place, but each iteration reads and writes only the current
vehicle's own fields and its dict entry, so it is the map below. -/
noncomputable def Road.update (road : Road) (dt : ℝ) : Road :=
  { road with
    vehicles := road.vehicles.map fun veh =>
      integrate_vehicle road.length dt veh ((road.accel_table veh.id).getD 0) }

/-- Modelled from the spec: the two-phase reference step of section 4.4,
in which every vehicle's acceleration is a pure function of the pre-step
vehicle list, and the integration writes only per-vehicle state. -/
noncomputable def Road.update_two_phase (road : Road) (dt : ℝ) : Road :=
  { road with
    vehicles := road.vehicles.map fun veh =>
      integrate_vehicle road.length dt veh
        (IDMModel.calc_acceleration veh (road.get_leader veh) 4) }

/-! ### core/vehicle.py and pytrafficflow/models/particle.py -/

/-- Embedding of `ParticleCar`: position, velocity and the (unused by the
dynamics) acceleration field, with its default `0`. -/
structure ParticleCar where
  x : ℚ
  v : ℚ
  a : ℚ := 0
deriving DecidableEq

/-- Embedding of the `ParticleTrafficModel` state. -/
structure ParticleTrafficModel where
  L : ℚ
  vmax : ℚ
  dmin : ℚ
  lcar : ℚ
  dt : ℚ
  cars : List ParticleCar
  time : ℚ
deriving DecidableEq

namespace ParticleTrafficModel

/-- Placeholder car used to embed Python list indexing; every index the
code uses is in range, so this default is never the value read. -/
def dummyCar : ParticleCar := { x := 0, v := 0, a := 0 }

/-- Embedding of `ParticleTrafficModel.compute_velocity_simple`, reading the
car list of the given model state: index `0` gets `vmax`, any other index
gets `max(0, min((front.x - car.x - dmin + front.v * dt) / dt, vmax))`
computed from the car at index `car_idx - 1`. -/
def compute_velocity_simple (m : ParticleTrafficModel) (car_idx : ℕ) : ℚ :=
  if car_idx = 0 then m.vmax
  else
    let car := m.cars.getD car_idx dummyCar
    let front_car := m.cars.getD (car_idx - 1) dummyCar
    max 0 (min ((front_car.x - car.x - m.dmin + front_car.v * m.dt) / m.dt) m.vmax)

/-- Embedding of the first loop of `ParticleTrafficModel.step`:
`for i, car in enumerate(self.cars): car.v = self.compute_velocity_simple(i)`.
The assignment at index `i` happens before index `i + 1` is computed, so
`compute_velocity_simple` reads the already-updated velocity of the car at
index `i - 1`; positions are not touched by this loop. -/
def vel_step (mm : ParticleTrafficModel) (i : ℕ) : ParticleTrafficModel :=
  let c := { mm.cars.getD i dummyCar with v := compute_velocity_simple mm i }
  { mm with cars := mm.cars.set i c }

def vel_loop (m : ParticleTrafficModel) : ParticleTrafficModel :=
  (List.range m.cars.length).foldl vel_step m

/-- Embedding of the second loop of `ParticleTrafficModel.step`: the explicit
Euler position update `car.x += car.v * self.dt`, applied after all
velocities have been written. -/
def moved_cars (m : ParticleTrafficModel) : List ParticleCar :=
  (vel_loop m).cars.map fun c => { c with x := c.x + c.v * m.dt }

/-- Embedding of `ParticleTrafficModel.step`: update velocities in place,
move positions, drop every car whose position now exceeds `L`, and advance
the clock by `dt`. -/
def step (m : ParticleTrafficModel) : ParticleTrafficModel :=
  { m with
    cars := (moved_cars m).filter fun c => c.x ≤ m.L
    time := m.time + m.dt }

/-- Modelled from the spec: the two-phase reference step of section 4.4 for
the particle model, in which every car's desired velocity is computed from
the pre-step snapshot of all cars, and only then are the results written. -/
def step_two_phase (m : ParticleTrafficModel) : ParticleTrafficModel :=
  let cars1 := (List.range m.cars.length).map fun i =>
    { m.cars.getD i dummyCar with v := compute_velocity_simple m i }
  let moved := cars1.map fun c => { c with x := c.x + c.v * m.dt }
  { m with
    cars := moved.filter fun c => c.x ≤ m.L
    time := m.time + m.dt }

end ParticleTrafficModel

/-! ### Concrete instances used by scenarios, witnesses and counterexamples -/

/-- Scenario VelocityFunction of the spec: `vmax=100, dmin=0.01, lcar=0.005,
K1=80, K2=1`, default `rho_c=0.175`, with the derived fields written exactly
as `__init__` computes them (`rho_max = 1/3`, log argument `19/7`). -/
noncomputable def vfScenario : VelocityFunction :=
  { vmax := 100, dmin := 1/100, lcar := 1/200, K1 := 80, K2 := 1
    rho_c := 0.175
    rho_max := (1/200) / (1/200 + 1/100)
    K3 := Real.log (100 / 80) /
      Real.log ((0.175 : ℝ) ^ (-(1 : ℝ)) -
        ((1/200) / (1/200 + 1/100) : ℝ) ^ (-(1 : ℝ))) }

/-! ### Claim theorems -/

/-- C6: for a valid VelocityFunction (`0 ≤ rho_c < rho_max`) and every
density, `v` is `vmax` on `rho ≤ rho_c`, the congested formula on
`rho_c < rho < rho_max`, and `0` on `rho ≥ rho_max` (region 3 authoritative
at `rho = rho_max`); consequently `v 0 = vmax`, `v rho_max = 0`,
`flux 0 = 0` and `flux rho_max = 0`. -/
theorem c6_velocity_piecewise (f : VelocityFunction)
    (h0 : 0 ≤ f.rho_c) (hcm : f.rho_c < f.rho_max) :
    (∀ rho, rho ≤ f.rho_c → f.eval rho = f.vmax) ∧
    (∀ rho, f.rho_c < rho → rho < f.rho_max →
      f.eval rho = f.K1 * (rho ^ (-f.K2) - f.rho_max ^ (-f.K2)) ^ f.K3) ∧
    (∀ rho, f.rho_max ≤ rho → f.eval rho = 0) ∧
    f.eval 0 = f.vmax ∧ f.eval f.rho_max = 0 ∧
    f.flux 0 = 0 ∧ f.flux f.rho_max = 0 := by
  have hfree : ∀ rho, rho ≤ f.rho_c → f.eval rho = f.vmax := by
    intro rho h
    rw [VelocityFunction.eval, if_neg (by push_neg; linarith),
      if_neg (fun hh => absurd h (not_le.mpr hh.1)), if_pos h]
  have hjam : ∀ rho, f.rho_max ≤ rho → f.eval rho = 0 := by
    intro rho h
    rw [VelocityFunction.eval, if_pos h]
  refine ⟨hfree, ?_, hjam, hfree 0 h0, hjam _ le_rfl, ?_, ?_⟩
  · intro rho h1 h2
    rw [VelocityFunction.eval, if_neg (not_le.mpr h2), if_pos ⟨h1, h2⟩]
  · rw [VelocityFunction.flux, mul_zero]
  · rw [VelocityFunction.flux, hjam _ le_rfl, zero_mul]

/-- Witness for C6 at the spec's scenario parameters. -/
theorem c6_velocity_piecewise_witness :
    0 ≤ vfScenario.rho_c ∧ vfScenario.rho_c < vfScenario.rho_max ∧
    vfScenario.eval 0 = vfScenario.vmax ∧ vfScenario.eval vfScenario.rho_max = 0 := by
  have h0 : 0 ≤ vfScenario.rho_c := by norm_num [vfScenario]
  have hcm : vfScenario.rho_c < vfScenario.rho_max := by norm_num [vfScenario]
  exact ⟨h0, hcm, (c6_velocity_piecewise vfScenario h0 hcm).2.2.2.1,
    (c6_velocity_piecewise vfScenario h0 hcm).2.2.2.2.1⟩

/-- C3 counterexample: with `vmax=dmin=lcar=K1=K2=1` and `rho_c = 1/2` the
critical density equals the jam density `rho_max = 1/2`, the argument of the
`K3` logarithm is non-positive, and yet construction succeeds — no error is
raised at construction time. -/
theorem c3_counterexample_no_error :
    ((1 : ℝ) / (1 + 1)) ≤ (1/2 : ℝ) ∧
    ((1/2 : ℝ) ^ (-(1 : ℝ)) - ((1 : ℝ) / (1 + 1)) ^ (-(1 : ℝ))) ≤ 0 ∧
    (mkVelocityFunction 1 1 1 1 1 (some (1/2))).isOk = true := by
  refine ⟨by norm_num, ?_, rfl⟩
  rw [rpow_neg_one_eval, rpow_neg_one_eval]
  norm_num

/-- C3 amended: `VelocityFunction` construction never fails, for any
parameters; and whenever `0 < K2`, `0 < rho_max` and `rho_c ≥ rho_max`, the
argument of the `K3` logarithm is non-positive (so `K3` is ill-defined at
runtime: `np.log` yields `nan`/`-inf` without raising). -/
theorem c3_construction_never_fails :
    (∀ (vmax dmin lcar K1 K2 : ℝ) (rc : Option ℝ),
      (mkVelocityFunction vmax dmin lcar K1 K2 rc).isOk = true) ∧
    (∀ (K2 rc rm : ℝ), 0 < K2 → 0 < rm → rm ≤ rc →
      rc ^ (-K2) - rm ^ (-K2) ≤ 0) := by
  constructor
  · intro vmax dmin lcar K1 K2 rc; rfl
  · intro K2 rc rm hK2 hrm hle
    have h := rpow_neg_anti hK2.le hrm hle
    linarith

/-- Witness for C3 (amended) at concrete parameters. -/
theorem c3_construction_never_fails_witness :
    (0:ℝ) < 1 ∧ (0:ℝ) < 1/3 ∧ (1/3 : ℝ) ≤ 1/2 ∧
    ((1/2 : ℝ) ^ (-(1 : ℝ)) - (1/3 : ℝ) ^ (-(1 : ℝ)) ≤ 0) ∧
    (mkVelocityFunction 2 3 4 5 6 none).isOk = true :=
  ⟨by norm_num, by norm_num, by norm_num,
    c3_construction_never_fails.2 1 (1/2) (1/3) (by norm_num) (by norm_num)
      (by norm_num),
    c3_construction_never_fails.1 2 3 4 5 6 none⟩

/-- The in-place velocity loop never changes the number of cars. -/
lemma vel_loop_cars_length (m : ParticleTrafficModel) :
    (ParticleTrafficModel.vel_loop m).cars.length = m.cars.length := by
  suffices h : ∀ (idxs : List ℕ) (mm : ParticleTrafficModel),
      ((idxs.foldl ParticleTrafficModel.vel_step mm).cars.length = mm.cars.length) by
    exact h _ m
  intro idxs
  induction idxs with
  | nil => intro mm; rfl
  | cons i t ih =>
    intro mm
    rw [List.foldl_cons, ih]
    simp [ParticleTrafficModel.vel_step]

/-- The moved car list has exactly as many cars as the pre-step state. -/
lemma moved_cars_length (m : ParticleTrafficModel) :
    (ParticleTrafficModel.moved_cars m).length = m.cars.length := by
  rw [ParticleTrafficModel.moved_cars, List.length_map, vel_loop_cars_length]

/-- C8: the IDM engine's step never creates or destroys vehicles, while the
particle engine's step removes exactly the cars whose post-update position
strictly exceeds `L`: the new count plus the number of cars beyond `L`
equals the old count, and the count never increases. -/
theorem c8_vehicle_conservation :
    (∀ (road : Road) (dt : ℝ),
      ((road.update dt).vehicles).length = road.vehicles.length) ∧
    (∀ m : ParticleTrafficModel,
      (m.step).cars.length +
        (ParticleTrafficModel.moved_cars m).countP (fun c => m.L < c.x) =
        m.cars.length ∧
      (m.step).cars.length ≤ m.cars.length) := by
  constructor
  · intro road dt
    rw [Road.update, List.length_map]
  · intro m
    constructor
    · rw [ParticleTrafficModel.step]
      have hcong : (fun c : ParticleCar => decide (m.L < c.x)) =
          fun c : ParticleCar => !(decide (c.x ≤ m.L)) := by
        funext c
        by_cases h : c.x ≤ m.L
        · simp [h, not_lt.mpr h]
        · simp [h, lt_of_not_le h]
      rw [hcong, ← moved_cars_length m, List.countP_eq_length_filter]
      exact (List.length_eq_length_filter_add
        (fun c : ParticleCar => decide (c.x ≤ m.L))).symm
    · calc (m.step).cars.length ≤ (ParticleTrafficModel.moved_cars m).length :=
            List.length_filter_le _ _
        _ = m.cars.length := moved_cars_length m

/-- Scenario of the spec: two particle cars, leader at `x=10, v=20`,
follower at `x=0, v=0`, with `dmin=0.01, dt=1/3600, vmax=100` (positions
kept sorted in descending order, as `add_car` maintains). -/
def mC9 : ParticleTrafficModel :=
  { L := 100, vmax := 100, dmin := 1/100, lcar := 1/200, dt := 1/3600
    cars := [{ x := 10, v := 20 }, { x := 0, v := 0 }], time := 0 }

/-- C9: `compute_velocity_simple` returns `vmax` at index 0, and at any
other in-range index the clamp `max(0, min((front.x - own.x - dmin +
front.v*dt)/dt, vmax))` computed from the car at index `i-1`; at the spec's
two-car scenario the follower's value is `min(vmax, (10-0-0.01+20/3600)/
(1/3600))`, which is clamped to `100`. -/
theorem c9_greedy_velocity :
    (∀ m : ParticleTrafficModel,
      ParticleTrafficModel.compute_velocity_simple m 0 = m.vmax) ∧
    (∀ (m : ParticleTrafficModel) (i : ℕ), 0 < i → ∀ hi : i < m.cars.length,
      ParticleTrafficModel.compute_velocity_simple m i =
        max 0 (min (((m.cars.get ⟨i - 1, by omega⟩).x -
          (m.cars.get ⟨i, hi⟩).x - m.dmin +
          (m.cars.get ⟨i - 1, by omega⟩).v * m.dt) / m.dt) m.vmax)) ∧
    ParticleTrafficModel.compute_velocity_simple mC9 1 =
      min mC9.vmax ((10 - 0 - 1/100 + 20 * (1/3600)) / (1/3600)) ∧
    ParticleTrafficModel.compute_velocity_simple mC9 1 = 100 := by
  refine ⟨fun m => rfl, ?_,
    by norm_num [ParticleTrafficModel.compute_velocity_simple, mC9,
      ParticleTrafficModel.dummyCar],
    by norm_num [ParticleTrafficModel.compute_velocity_simple, mC9,
      ParticleTrafficModel.dummyCar]⟩
  intro m i h0 hi
  rw [ParticleTrafficModel.compute_velocity_simple, if_neg (Nat.pos_iff_ne_zero.mp h0)]
  rw [List.getD_eq_getElem _ _ hi, List.getD_eq_getElem _ _ (by omega : i - 1 < m.cars.length)]
  rfl

/-- Witness for C9 at the scenario state and index 1. -/
theorem c9_greedy_velocity_witness :
    0 < 1 ∧ 1 < mC9.cars.length ∧
    ParticleTrafficModel.compute_velocity_simple mC9 1 =
      max 0 (min (((mC9.cars.get ⟨0, by decide⟩).x -
        (mC9.cars.get ⟨1, by decide⟩).x - mC9.dmin +
        (mC9.cars.get ⟨0, by decide⟩).v * mC9.dt) / mC9.dt) mC9.vmax) :=
  ⟨by decide, by decide, c9_greedy_velocity.2.1 mC9 1 (by decide) (by decide)⟩

/-- Single IDM vehicle of the spec's free-road scenario: `speed = 0`,
`v_desired = 30`, `a_max = 1` (the dataclass defaults). -/
noncomputable def vC1 : Vehicle := { id := 0, position := 0, speed := 0, lane := 0 }

/-- C10: with non-negative speed, positive desired speed, non-negative
maximum acceleration and comfortable deceleration, and the default exponent
`delta = 4`, the IDM acceleration never exceeds `a_max`, with or without a
leader. -/
theorem c10_idm_acceleration_bounded (veh : Vehicle) (leader : Option Vehicle)
    (hspeed : 0 ≤ veh.speed) (hdes : 0 < veh.v_desired)
    (hamax : 0 ≤ veh.a_max) (_hbc : 0 ≤ veh.b_comfort) :
    IDMModel.calc_acceleration veh leader 4 ≤ veh.a_max := by
  have hpow : 0 ≤ (veh.speed / veh.v_desired) ^ (4 : ℝ) :=
    Real.rpow_nonneg (div_nonneg hspeed hdes.le) 4
  cases leader with
  | none =>
    rw [IDMModel.calc_acceleration]
    nlinarith [mul_nonneg hamax hpow]
  | some l =>
    rw [IDMModel.calc_acceleration]
    have hsq : 0 ≤ ((veh.s0 + max 0 (veh.speed * veh.T +
        veh.speed * (veh.speed - l.speed) /
          (2 * Real.sqrt (veh.a_max * veh.b_comfort)))) /
        max (l.position - veh.position - l.length) 0.1) ^ 2 := sq_nonneg _
    nlinarith [mul_nonneg hamax hpow, mul_nonneg hamax hsq]

/-- Witness for C10 at the free-road scenario vehicle. -/
theorem c10_idm_acceleration_bounded_witness :
    0 ≤ vC1.speed ∧ 0 < vC1.v_desired ∧ 0 ≤ vC1.a_max ∧ 0 ≤ vC1.b_comfort ∧
    IDMModel.calc_acceleration vC1 none 4 ≤ vC1.a_max := by
  refine ⟨by norm_num [vC1], by norm_num [vC1], by norm_num [vC1],
    by norm_num [vC1], ?_⟩
  exact c10_idm_acceleration_bounded vC1 none (by norm_num [vC1])
    (by norm_num [vC1]) (by norm_num [vC1]) (by norm_num [vC1])

/-- C5 counterexample vehicle: cruising exactly at its desired speed, so
its IDM acceleration is `0` and one 1-second step from position `0` on a
30-metre ring lands exactly on `position = length`, which the single
conditional wrap leaves untouched. -/
noncomputable def vC5 : Vehicle := { id := 0, position := 0, speed := 30, lane := 0 }

/-- C5 counterexample road: a ring of length 30 holding only `vC5`. -/
noncomputable def rC5 : Road := { length := 30, n_lanes := 2, vehicles := [vC5] }

/-- A single vehicle on a road has no leader: the same-lane filter removes
the vehicle itself (equal id) and nothing else remains. -/
lemma get_leader_single (L : ℝ) (n : ℕ) (v : Vehicle) :
    (Road.mk L n [v]).get_leader v = none := by
  simp [Road.get_leader]

/-- On a single-vehicle road the acceleration dict maps the vehicle's id to
its own free-road acceleration. -/
lemma accel_table_single (L : ℝ) (n : ℕ) (v : Vehicle) :
    (Road.mk L n [v]).accel_table v.id =
      some (IDMModel.calc_acceleration v none 4) := by
  rw [Road.accel_table]
  simp only [table_fold, List.foldl_cons, List.foldl_nil, table_insert]
  rw [if_pos trivial, get_leader_single]

/-- Updating a single-vehicle road integrates that vehicle with its
free-road acceleration. -/
lemma road_update_single (L : ℝ) (n : ℕ) (v : Vehicle) (dt : ℝ) :
    (Road.mk L n [v]).update dt =
      Road.mk L n [integrate_vehicle L dt v (IDMModel.calc_acceleration v none 4)] := by
  rw [Road.update]
  simp only [List.map_cons, List.map_nil, accel_table_single, Option.getD_some]

/-- C5 counterexample: after one step of `rC5` the vehicle's position is
exactly `30 = roadLength`, which is not strictly below the road length, so
the post-step position does not lie in `[0, roadLength)`. -/
theorem c5_counterexample_position_at_length :
    (rC5.update 1).vehicles.map Vehicle.position = [30] ∧
    rC5.length = 30 ∧ ¬ ((30 : ℝ) < 30) := by
  refine ⟨?_, rfl, lt_irrefl 30⟩
  have hacc : IDMModel.calc_acceleration vC5 none 4 = 0 := by
    rw [IDMModel.calc_acceleration]
    rw [show vC5.speed / vC5.v_desired = 1 by norm_num [vC5]]
    rw [Real.one_rpow]
    norm_num [vC5]
  have h := road_update_single 30 2 vC5 1
  rw [show rC5 = Road.mk 30 2 [vC5] from rfl, h, hacc]
  rw [integrate_vehicle]
  simp only [List.map_cons, List.map_nil]
  rw [show max 0 (vC5.speed + 0 * 1) = (30:ℝ) by norm_num [vC5]]
  rw [wrap_position]
  norm_num [vC5]

/-- C5 amended: after every IDM step every vehicle's speed is non-negative,
for any acceleration; and the single conditional wrap keeps the position in
the closed interval `[0, roadLength]` provided the unwrapped post-step
position lies within `[-roadLength, 2*roadLength]` (the endpoint
`roadLength` itself is reachable, so the interval is closed, not
half-open). -/
theorem c5_speed_nonneg_position_wrapped :
    (∀ (road : Road) (dt : ℝ) (veh : Vehicle),
      veh ∈ (road.update dt).vehicles → 0 ≤ veh.speed) ∧
    (∀ (L x : ℝ), 0 ≤ L → -L ≤ x → x ≤ 2 * L →
      0 ≤ wrap_position L x ∧ wrap_position L x ≤ L) := by
  constructor
  · intro road dt veh hmem
    rw [Road.update] at hmem
    obtain ⟨w, _, rfl⟩ := List.mem_map.mp hmem
    exact le_max_left _ _
  · intro L x hL h1 h2
    rw [wrap_position]
    split_ifs with hgt hlt
    · constructor <;> linarith
    · constructor <;> linarith
    · constructor <;> linarith

/-- Witness for C5 (amended): a wrap of the unwrapped position `-5` on a
1000-metre ring, and a post-step speed on the counterexample road. -/
theorem c5_speed_nonneg_position_wrapped_witness :
    0 ≤ (1000 : ℝ) ∧ -(1000 : ℝ) ≤ -5 ∧ (-5 : ℝ) ≤ 2 * 1000 ∧
    0 ≤ wrap_position 1000 (-5) ∧ wrap_position 1000 (-5) ≤ 1000 :=
  ⟨by norm_num, by norm_num, by norm_num,
    (c5_speed_nonneg_position_wrapped.2 1000 (-5) (by norm_num) (by norm_num)
      (by norm_num)).1,
    (c5_speed_nonneg_position_wrapped.2 1000 (-5) (by norm_num) (by norm_num)
      (by norm_num)).2⟩

/-- C1 scenario road: a 1000-metre ring holding only the free-road
vehicle `vC1` (`speed = 0`, `v_desired = 30`, `a_max = 1`). -/
noncomputable def rC1 : Road := { length := 1000, n_lanes := 2, vehicles := [vC1] }

/-- C1: at the spec's free-road scenario the IDM acceleration is exactly
`1` and the post-step speed is `1`, as claimed; but the post-step position
is `3/2`, not the ballistic `position + speed*dt + 0.5*a*dt^2 = 1/2` the
claim states, because `Road.update` assigns the clamped new speed to
`veh.speed` before the position line reads `veh.speed`. -/
theorem c1_ballistic_divergence :
    IDMModel.calc_acceleration vC1 none 4 = 1 ∧
    (rC1.update 1).vehicles.map Vehicle.speed = [1] ∧
    (rC1.update 1).vehicles.map Vehicle.position = [3/2] ∧
    vC1.position + vC1.speed * 1 + 0.5 * 1 * 1 ^ 2 = (1/2 : ℝ) ∧
    (3/2 : ℝ) ≠ 1/2 := by
  have hacc : IDMModel.calc_acceleration vC1 none 4 = 1 := by
    rw [IDMModel.calc_acceleration]
    rw [show vC1.speed / vC1.v_desired = 0 by norm_num [vC1]]
    rw [Real.zero_rpow (by norm_num)]
    norm_num [vC1]
  refine ⟨hacc, ?_, ?_, by norm_num [vC1], by norm_num⟩ <;>
  · have h := road_update_single 1000 2 vC1 1
    rw [show rC1 = Road.mk 1000 2 [vC1] from rfl, h, hacc]
    simp only [integrate_vehicle, wrap_position, List.map_cons, List.map_nil]
    norm_num [vC1]

/-- Folding dict insertions over vehicles none of which carries the key `k`
leaves the entry at `k` unchanged. -/
lemma table_fold_no_key (g : Vehicle → ℝ) :
    ∀ (l : List Vehicle) (init : ℤ → Option ℝ) (k : ℤ),
      (∀ u ∈ l, u.id ≠ k) → table_fold g init l k = init k := by
  intro l
  induction l with
  | nil => intro init k _; rfl
  | cons w t ih =>
    intro init k h
    rw [show table_fold g init (w :: t) = table_fold g (table_insert g init w) t
      from rfl]
    rw [ih _ k fun u hu => h u (List.mem_cons_of_mem _ hu)]
    rw [table_insert, if_neg (h w (List.mem_cons_self w t)).symm]

/-- With pairwise distinct ids, the acceleration dict maps each vehicle's id
to that vehicle's own entry. -/
lemma table_fold_mem (g : Vehicle → ℝ) :
    ∀ (l : List Vehicle) (init : ℤ → Option ℝ) (v : Vehicle),
      v ∈ l → (l.map Vehicle.id).Nodup → table_fold g init l v.id = some (g v) := by
  intro l
  induction l with
  | nil => intro init v hv _; exact absurd hv (List.not_mem_nil v)
  | cons w t ih =>
    intro init v hv hnd
    rw [List.map_cons, List.nodup_cons] at hnd
    rw [show table_fold g init (w :: t) = table_fold g (table_insert g init w) t
      from rfl]
    rcases List.mem_cons.mp hv with rfl | hvt
    · have hnot : ∀ u ∈ t, u.id ≠ v.id := by
        intro u hu he
        exact hnd.1 (he ▸ List.mem_map_of_mem Vehicle.id hu)
      rw [table_fold_no_key g t _ v.id hnot]
      rw [table_insert, if_pos rfl]
    · exact ih _ v hvt hnd.2

/-- C2 amended, IDM half: when vehicle ids are pairwise distinct,
`Road.update` coincides with the spec's two-phase reference step, whose
accelerations are all computed from the pre-step vehicle list. -/
theorem c2_idm_snapshot (road : Road) (dt : ℝ)
    (h : (road.vehicles.map Vehicle.id).Nodup) :
    road.update dt = road.update_two_phase dt := by
  have hmap : (road.vehicles.map fun veh =>
      integrate_vehicle road.length dt veh ((road.accel_table veh.id).getD 0)) =
      road.vehicles.map fun veh => integrate_vehicle road.length dt veh
        (IDMModel.calc_acceleration veh (road.get_leader veh) 4) := by
    apply List.map_congr_left
    intro v hv
    rw [Road.accel_table, table_fold_mem _ _ _ v hv h, Option.getD_some]
  rw [Road.update, Road.update_two_phase, hmap]

/-- Witness for C2 (IDM half) on the concrete single-vehicle road. -/
theorem c2_idm_snapshot_witness :
    (rC1.vehicles.map Vehicle.id).Nodup ∧
    rC1.update 1 = rC1.update_two_phase 1 := by
  have h : (rC1.vehicles.map Vehicle.id).Nodup := by
    simp [rC1]
  exact ⟨h, c2_idm_snapshot rC1 1 h⟩

/-- C2 particle counterexample state: leader at `x = 0.012` with `v = 0`,
follower at `x = 0`, `vmax = 10`, `dmin = 0.01`, `dt = 1/3600`. -/
def mC2 : ParticleTrafficModel :=
  { L := 100, vmax := 10, dmin := 1/100, lcar := 1/200, dt := 1/3600
    cars := [{ x := 3/250, v := 0 }, { x := 0, v := 0 }], time := 0 }

/-- C2 counterexample: the particle step's in-place velocity loop gives the
follower desired velocity `10` (it reads the leader's freshly assigned
`v = vmax = 10`), while the two-phase snapshot reference gives `36/5 = 7.2`
(it reads the leader's pre-step `v = 0`), so the particle step does not
equal the two-phase reference step. -/
theorem c2_counterexample_particle_sequential :
    (ParticleTrafficModel.step mC2).cars.map ParticleCar.v = [10, 10] ∧
    (ParticleTrafficModel.step_two_phase mC2).cars.map ParticleCar.v = [10, 36/5] ∧
    ParticleTrafficModel.step mC2 ≠ ParticleTrafficModel.step_two_phase mC2 := by
  have h1 : (ParticleTrafficModel.step mC2).cars.map ParticleCar.v = [10, 10] := by
    norm_num [ParticleTrafficModel.step, ParticleTrafficModel.moved_cars,
      ParticleTrafficModel.vel_loop, ParticleTrafficModel.vel_step,
      ParticleTrafficModel.compute_velocity_simple, ParticleTrafficModel.dummyCar,
      mC2, List.range_succ]
  have h2 : (ParticleTrafficModel.step_two_phase mC2).cars.map ParticleCar.v =
      [10, 36/5] := by
    norm_num [ParticleTrafficModel.step_two_phase,
      ParticleTrafficModel.compute_velocity_simple, ParticleTrafficModel.dummyCar,
      mC2, List.range_succ]
  refine ⟨h1, h2, fun he => ?_⟩
  rw [he, h2] at h1
  exact absurd h1 (by norm_num)

/-- C4 counterexample parameters: `vmax=2, dmin=1, lcar=2, K1=1, K2=1,
rho_c=2/5`, so `rho_max = 2/3` and the `K3` logarithm argument is
`(2/5)⁻¹ - (2/3)⁻¹ = 1` — positive, yet the congested branch at `rho_c`
evaluates to `K1 * 1 ^ K3 = 1 ≠ 2 = vmax`.  The derived fields are written
exactly as `__init__` computes them. -/
noncomputable def vfC4 : VelocityFunction :=
  { vmax := 2, dmin := 1, lcar := 2, K1 := 1, K2 := 1
    rho_c := 2/5
    rho_max := 2 / (2 + 1)
    K3 := Real.log (2 / 1) /
      Real.log ((2/5 : ℝ) ^ (-(1 : ℝ)) - (2 / (2 + 1) : ℝ) ^ (-(1 : ℝ))) }

/-- C4 counterexample: all of the claim's validity conditions hold (positive
`vmax`, `K1`, `K2`, `0 < rho_c < rho_max`, positive logarithm argument) for
a `VelocityFunction` produced by construction, yet the congested branch at
`rho = rho_c` is `1`, not `vmax = 2`: continuity fails when the logarithm
argument equals `1`. -/
theorem c4_counterexample_log_arg_one :
    mkVelocityFunction 2 1 2 1 1 (some (2/5)) = Except.ok vfC4 ∧
    0 < vfC4.vmax ∧ 0 < vfC4.K1 ∧ 0 < vfC4.K2 ∧
    0 < vfC4.rho_c ∧ vfC4.rho_c < vfC4.rho_max ∧
    0 < vfC4.rho_c ^ (-vfC4.K2) - vfC4.rho_max ^ (-vfC4.K2) ∧
    vfC4.K1 * (vfC4.rho_c ^ (-vfC4.K2) - vfC4.rho_max ^ (-vfC4.K2)) ^ vfC4.K3 ≠
      vfC4.vmax := by
  have harg : vfC4.rho_c ^ (-vfC4.K2) - vfC4.rho_max ^ (-vfC4.K2) = 1 := by
    show (2/5 : ℝ) ^ (-(1 : ℝ)) - (2 / (2 + 1) : ℝ) ^ (-(1 : ℝ)) = 1
    rw [rpow_neg_one_eval, rpow_neg_one_eval]
    norm_num
  refine ⟨rfl, by norm_num [vfC4], by norm_num [vfC4], by norm_num [vfC4],
    by norm_num [vfC4], by norm_num [vfC4], by rw [harg]; norm_num, ?_⟩
  rw [harg, Real.one_rpow]
  norm_num [vfC4]

/-- C4 amended: for valid parameters whose logarithm argument is positive
and different from `1`, the congested branch with the construction's `K3`
evaluates exactly to `vmax` at `rho = rho_c`. -/
theorem c4_continuity (f : VelocityFunction)
    (hv : 0 < f.vmax) (hK1 : 0 < f.K1)
    (harg : 0 < f.rho_c ^ (-f.K2) - f.rho_max ^ (-f.K2))
    (hne : f.rho_c ^ (-f.K2) - f.rho_max ^ (-f.K2) ≠ 1)
    (hK3 : f.K3 = Real.log (f.vmax / f.K1) /
      Real.log (f.rho_c ^ (-f.K2) - f.rho_max ^ (-f.K2))) :
    f.K1 * (f.rho_c ^ (-f.K2) - f.rho_max ^ (-f.K2)) ^ f.K3 = f.vmax := by
  have hlog : Real.log (f.rho_c ^ (-f.K2) - f.rho_max ^ (-f.K2)) ≠ 0 :=
    Real.log_ne_zero_of_pos_of_ne_one harg hne
  rw [hK3, Real.rpow_def_of_pos harg, mul_comm (Real.log _),
    div_mul_cancel₀ _ hlog, Real.exp_log (div_pos hv hK1),
    mul_comm, div_mul_cancel₀ _ (ne_of_gt hK1)]

/-- Witness for C4 (amended) at the spec's scenario parameters, whose
logarithm argument is `40/7 - 3 = 19/7 ≠ 1`. -/
theorem c4_continuity_witness :
    0 < vfScenario.vmax ∧ 0 < vfScenario.K1 ∧
    0 < vfScenario.rho_c ^ (-vfScenario.K2) - vfScenario.rho_max ^ (-vfScenario.K2) ∧
    vfScenario.rho_c ^ (-vfScenario.K2) - vfScenario.rho_max ^ (-vfScenario.K2) ≠ 1 ∧
    vfScenario.K1 * (vfScenario.rho_c ^ (-vfScenario.K2) -
      vfScenario.rho_max ^ (-vfScenario.K2)) ^ vfScenario.K3 = vfScenario.vmax := by
  have harg : vfScenario.rho_c ^ (-vfScenario.K2) -
      vfScenario.rho_max ^ (-vfScenario.K2) = 19/7 := by
    show (0.175 : ℝ) ^ (-(1 : ℝ)) - ((1/200) / (1/200 + 1/100) : ℝ) ^ (-(1 : ℝ)) = 19/7
    rw [rpow_neg_one_eval, rpow_neg_one_eval]
    norm_num
  refine ⟨by norm_num [vfScenario], by norm_num [vfScenario],
    by rw [harg]; norm_num, by rw [harg]; norm_num, ?_⟩
  exact c4_continuity vfScenario (by norm_num [vfScenario]) (by norm_num [vfScenario])
    (by rw [harg]; norm_num) (by rw [harg]; norm_num) rfl

/-- In the open congested region the velocity evaluator takes the region-2
branch. -/
lemma eval_congested (f : VelocityFunction) {rho : ℝ}
    (h1 : f.rho_c < rho) (h2 : rho < f.rho_max) :
    f.eval rho = f.K1 * (rho ^ (-f.K2) - f.rho_max ^ (-f.K2)) ^ f.K3 := by
  rw [VelocityFunction.eval, if_neg (not_le.mpr h2), if_pos ⟨h1, h2⟩]

/-- The argument of the congested power is positive strictly below the jam
density. -/
lemma congested_base_pos (f : VelocityFunction) (hK2 : 0 < f.K2) {rho : ℝ}
    (h0 : 0 < rho) (h2 : rho < f.rho_max) :
    0 < rho ^ (-f.K2) - f.rho_max ^ (-f.K2) :=
  sub_pos.mpr (rpow_neg_strictAnti hK2 h0 h2)

/-- C7 counterexample parameters: `vmax=1, dmin=1, lcar=1, K1=2, K2=1,
rho_c=1/4`, so `rho_max = 1/2`, the `K3` logarithm argument is
`4 - 2 = 2 > 0`, and `K3 = log(1/2)/log 2 = -1 < 0`.  The derived fields
are written exactly as `__init__` computes them. -/
noncomputable def vfC7 : VelocityFunction :=
  { vmax := 1, dmin := 1, lcar := 1, K1 := 2, K2 := 1
    rho_c := 1/4
    rho_max := 1 / (1 + 1)
    K3 := Real.log (1 / 2) /
      Real.log ((1/4 : ℝ) ^ (-(1 : ℝ)) - (1 / (1 + 1) : ℝ) ^ (-(1 : ℝ))) }

/-- C7 counterexample: a constructed VelocityFunction with positive
`vmax, K1, K2`, `0 < rho_c < rho_max` and a positive logarithm argument
whose `K3` is negative; its derivative at `rho = 3/10 ∈ (rho_c, rho_max)`
is strictly positive and `v(3/10) < v(2/5)` with `3/10 < 2/5` in the
interval, so `v` is strictly increasing there, not decreasing. -/
theorem c7_counterexample_increasing :
    mkVelocityFunction 1 1 1 2 1 (some (1/4)) = Except.ok vfC7 ∧
    0 < vfC7.vmax ∧ 0 < vfC7.K1 ∧ 0 < vfC7.K2 ∧
    0 < vfC7.rho_c ∧ vfC7.rho_c < vfC7.rho_max ∧
    0 < vfC7.rho_c ^ (-vfC7.K2) - vfC7.rho_max ^ (-vfC7.K2) ∧
    vfC7.rho_c < 3/10 ∧ (3/10 : ℝ) < 2/5 ∧ (2/5 : ℝ) < vfC7.rho_max ∧
    0 < vfC7.derivative (3/10) ∧
    vfC7.eval (3/10) < vfC7.eval (2/5) := by
  have hrm : vfC7.rho_max = 1/2 := by norm_num [vfC7]
  have hrc : vfC7.rho_c = 1/4 := rfl
  have hK1e : vfC7.K1 = 2 := rfl
  have hK2e : vfC7.K2 = 1 := rfl
  have hK3 : vfC7.K3 = -1 := by
    show Real.log (1 / 2) /
      Real.log ((1/4 : ℝ) ^ (-(1 : ℝ)) - (1 / (1 + 1) : ℝ) ^ (-(1 : ℝ))) = -1
    rw [rpow_neg_one_eval, rpow_neg_one_eval]
    rw [show ((1:ℝ)/4)⁻¹ - ((1:ℝ)/(1+1))⁻¹ = 2 by norm_num]
    rw [show ((1:ℝ)/2) = ((2:ℝ))⁻¹ by norm_num, Real.log_inv]
    rw [neg_div, div_self (ne_of_gt (Real.log_pos (by norm_num)))]
  have harg : 0 < vfC7.rho_c ^ (-vfC7.K2) - vfC7.rho_max ^ (-vfC7.K2) := by
    rw [hrm, hrc, hK2e, rpow_neg_one_eval, rpow_neg_one_eval]
    norm_num
  have he1 : vfC7.eval (3/10) = 3/2 := by
    simp only [VelocityFunction.eval, hrm, hrc, hK1e, hK2e, hK3]
    norm_num [rpow_neg_one_eval]
  have he2 : vfC7.eval (2/5) = 4 := by
    simp only [VelocityFunction.eval, hrm, hrc, hK1e, hK2e, hK3]
    norm_num [rpow_neg_one_eval]
  have hd : 0 < vfC7.derivative (3/10) := by
    simp only [VelocityFunction.derivative, hrm, hrc, hK1e, hK2e, hK3]
    norm_num [rpow_neg_one_eval, rpow_neg_two_eval]
  refine ⟨rfl, by norm_num [vfC7], by norm_num [vfC7], by norm_num [vfC7],
    by norm_num [vfC7], by rw [hrc, hrm]; norm_num, harg,
    by rw [hrc]; norm_num, by norm_num, by rw [hrm]; norm_num, hd, ?_⟩
  rw [he1, he2]
  norm_num

/-- C7 amended: for a valid VelocityFunction whose construction produced a
positive `K3`, the velocity is strictly decreasing on `(rho_c, rho_max)`,
the derivative is ≤ 0 there, and the derivative is exactly 0 at every
density outside that open interval. -/
theorem c7_monotone (f : VelocityFunction)
    (hK1 : 0 < f.K1) (hK2 : 0 < f.K2) (hc : 0 < f.rho_c) (hK3 : 0 < f.K3) :
    (∀ r1 r2, f.rho_c < r1 → r1 < r2 → r2 < f.rho_max → f.eval r2 < f.eval r1) ∧
    (∀ rho, f.rho_c < rho → rho < f.rho_max → f.derivative rho ≤ 0) ∧
    (∀ rho, rho ≤ f.rho_c ∨ f.rho_max ≤ rho → f.derivative rho = 0) := by
  refine ⟨?_, ?_, ?_⟩
  · intro r1 r2 h1 h12 h2
    have h01 : 0 < r1 := hc.trans h1
    have h02 : 0 < r2 := h01.trans h12
    rw [eval_congested f h1 (h12.trans h2), eval_congested f (h1.trans h12) h2]
    have hb2 : 0 < r2 ^ (-f.K2) - f.rho_max ^ (-f.K2) :=
      congested_base_pos f hK2 h02 h2
    have hlt : r2 ^ (-f.K2) - f.rho_max ^ (-f.K2) <
        r1 ^ (-f.K2) - f.rho_max ^ (-f.K2) :=
      sub_lt_sub_right (rpow_neg_strictAnti hK2 h01 h12) _
    exact mul_lt_mul_of_pos_left (Real.rpow_lt_rpow hb2.le hlt hK3) hK1
  · intro rho h1 h2
    have h0 : 0 < rho := hc.trans h1
    rw [VelocityFunction.derivative, if_pos ⟨h1, h2⟩]
    have hB : 0 < rho ^ (-f.K2) - f.rho_max ^ (-f.K2) :=
      congested_base_pos f hK2 h0 h2
    have hP : 0 < f.K1 * f.K3 * (rho ^ (-f.K2) - f.rho_max ^ (-f.K2)) ^ (f.K3 - 1) :=
      mul_pos (mul_pos hK1 hK3) (Real.rpow_pos_of_pos hB _)
    have hR : 0 < rho ^ (-f.K2 - 1) := Real.rpow_pos_of_pos h0 _
    nlinarith [mul_pos hP hR]
  · intro rho hor
    rw [VelocityFunction.derivative, if_neg]
    rintro ⟨ha, hb⟩
    rcases hor with h | h <;> linarith

/-- Witness for C7 (amended) at the spec's scenario parameters, whose
`K3 = log(5/4)/log(19/7)` is positive. -/
theorem c7_monotone_witness :
    0 < vfScenario.K1 ∧ 0 < vfScenario.K2 ∧ 0 < vfScenario.rho_c ∧
    0 < vfScenario.K3 ∧ ((1:ℝ)/10 ≤ vfScenario.rho_c ∨ vfScenario.rho_max ≤ 1/10) ∧
    vfScenario.derivative (1/10) = 0 := by
  have hK3 : 0 < vfScenario.K3 := by
    have h : vfScenario.K3 = Real.log (100/80) / Real.log (19/7) := by
      show Real.log (100 / 80) /
        Real.log ((0.175 : ℝ) ^ (-(1 : ℝ)) -
          ((1/200) / (1/200 + 1/100) : ℝ) ^ (-(1 : ℝ))) = _
      rw [rpow_neg_one_eval, rpow_neg_one_eval]
      norm_num
    rw [h]
    exact div_pos (Real.log_pos (by norm_num)) (Real.log_pos (by norm_num))
  have hor : ((1:ℝ)/10 ≤ vfScenario.rho_c ∨ vfScenario.rho_max ≤ 1/10) :=
    Or.inl (by norm_num [vfScenario])
  exact ⟨by norm_num [vfScenario], by norm_num [vfScenario],
    by norm_num [vfScenario], hK3, hor,
    (c7_monotone vfScenario (by norm_num [vfScenario]) (by norm_num [vfScenario])
      (by norm_num [vfScenario]) hK3).2.2 (1/10) hor⟩

end PyTrafficFlow
